import Mathlib

/-!
Shallow embedding of the Slumberr firmware (src/Firmware/firmware.ino) and
proofs about its duty-cycle orchestration.

The firmware is an ESP32 sketch: every wake is a fresh boot of `setup()`,
after which the device enters deep sleep (a full power-down; only the
battery-backed real-time clock and the SPIFFS flash file system survive).
The embedding models:

  * the persisted log store as the ordered list of sample records held in
    /data_log.txt (one record per printed line, in append order);
  * each hardware / network interaction of a wake (file-system mount,
    WiFi association, RTC reads, log-file opens) by its outcome, collected
    in an `Env` record, since the firmware only branches on those outcomes;
  * `setup()` as a function from an `Env` and the persisted store to the
    new store plus the ordered trace of externally visible steps (`Event`s);
  * the serialization call of `collectAndLogData` at the C varargs level
    (format-directed word consumption), which is needed because the source
    passes `int32_t` arguments to `%.2f` conversions.

RAM globals (`isMorning`, `wifiInitialized`) are re-initialized on every
boot: `esp_deep_sleep_start` powers the RAM down, so each wake starts from
the C initializers `false`.  The constants below record those initializers.
-/

namespace Slumberr

/-- Time of day as read from the real-time clock; the firmware uses the
`tm_hour`, `tm_min`, `tm_sec` fields of `struct tm`. -/
structure ClockTime where
  hour : Nat
  minute : Nat
  second : Nat
deriving DecidableEq

/-- One sample record, the unit of storage: the time-of-day of the reading,
the heart-rate and SpO2 estimates (`int32_t` in the source, hence `Int`)
and the temperature (a C `float`; modelled as a rational since only its
value, never its arithmetic, matters here). -/
structure SampleRecord where
  hour : Nat
  minute : Nat
  second : Nat
  heartRate : Int
  spo2 : Int
  temperature : Rat
deriving DecidableEq

/-- Output of the opaque estimator `maxim_heart_rate_and_oxygen_saturation`:
heart rate and SpO2 (`int32_t`) plus the two per-metric validity flags
(`int8_t`). -/
structure EstimatorOutput where
  heartRate : Int
  spo2 : Int
  validHeartRate : Int
  validSpO2 : Int
deriving DecidableEq

/-- `const int MORNING_HOUR = 6;` — the fixed morning threshold hour. -/
def MORNING_HOUR : Nat := 6

/-- `const uint64_t SLEEP_INTERVAL = 20 * 1000000LL;` — the wake-timer
interval in microseconds. -/
def SLEEP_INTERVAL : Nat := 20 * 1000000

/-- Boot-time value of the RAM global `bool isMorning = false;`.  Deep sleep
is a full power-down, so every wake starts from this initializer. -/
def isMorningAtBoot : Bool := false

/-- Boot-time value of the RAM global `bool wifiInitialized = false;`.  The
variable carries no RTC-memory attribute, so it does not survive deep sleep:
every wake starts from this initializer. -/
def wifiInitializedAtBoot : Bool := false

/-- `#define VIBRATION_MOTOR_PIN 3` -/
def VIBRATION_MOTOR_PIN : Nat := 3

/-- Externally visible steps of one boot, in the order `setup()` performs
them.  `armTimer` carries the microsecond argument passed to
`esp_sleep_enable_timer_wakeup`. -/
inductive Event where
  | sensorInit
  | bootstrapConnect
  | ntpSync
  | radioOff
  | clockRead
  | syncConnect
  | drainStore
  | acquire
  | logFileOpen
  | appendRecord
  | posture
  | armTimer (microseconds : Nat)
  | deepSleep
deriving DecidableEq

/-- Position of each step in the per-wake sequence the spec fixes:
sensor-bus init, clock bootstrap (connect, NTP set, radio off), clock read,
conditional sync (connect, drain), acquisition, log-file open, append,
posture feedback, arm timer, deep sleep. -/
def phase : Event → Nat
  | .sensorInit => 0
  | .bootstrapConnect => 1
  | .ntpSync => 1
  | .radioOff => 1
  | .clockRead => 2
  | .syncConnect => 3
  | .drainStore => 3
  | .acquire => 4
  | .logFileOpen => 5
  | .appendRecord => 6
  | .posture => 7
  | .armTimer _ => 8
  | .deepSleep => 9

/-- Result of `sendData()`: the records handed to the sink (in file order),
the store contents afterwards, and the trace of the drain. -/
structure DrainResult where
  delivered : List SampleRecord
  store : List SampleRecord
  events : List Event
deriving DecidableEq

/-- `sendData()` (firmware.ino lines 136-153): opens /data_log.txt for
reading (early return on failure, store untouched), sends every line to the
sink in insertion order, closes the file and then runs
`SPIFFS.remove("/data_log.txt")` unconditionally.  `deliveryOk` is the
outcome the sink would report for the batch; the source never consults any
delivery outcome before the remove, so the function ignores it. -/
def sendData (openOk : Bool) (deliveryOk : Bool) (store : List SampleRecord) :
    DrainResult :=
  if openOk then ⟨store, [], [Event.drainStore]⟩
  else ⟨[], store, []⟩

/-- Result of `collectAndLogData()`: store afterwards plus its trace. -/
structure AcqResult where
  store : List SampleRecord
  events : List Event
deriving DecidableEq

/-- The record composed by the logging `printf` of `collectAndLogData`:
time-of-day from the RTC read, heart rate and SpO2 exactly as returned by
the estimator, and the probe temperature. -/
def acquiredRecord (t : ClockTime) (est : EstimatorOutput) (temp : Rat) :
    SampleRecord :=
  ⟨t.hour, t.minute, t.second, est.heartRate, est.spo2, temp⟩

/-- `collectAndLogData()` (lines 155-190): samples the optical sensor and
runs the estimator (`Event.acquire`), reads the temperature, opens the log
file in append mode (early return on failure), reads the RTC and — only if
that read succeeds — appends one formatted record line; on RTC failure the
file is opened and closed with nothing written. -/
def collectAndLogData (est : EstimatorOutput) (temp : Rat) (openOk : Bool)
    (clock : Option ClockTime) (store : List SampleRecord) : AcqResult :=
  if openOk then
    match clock with
    | some t =>
        ⟨store ++ [acquiredRecord t est temp],
         [Event.acquire, Event.logFileOpen, Event.appendRecord]⟩
    | none => ⟨store, [Event.acquire, Event.logFileOpen]⟩
  else ⟨store, [Event.acquire]⟩

/-- A single vibration-motor actuation: the pin driven HIGH and for how
many milliseconds. -/
structure Pulse where
  pin : Nat
  highMs : Nat
deriving DecidableEq

/-- `correctPosture()` (lines 192-204): reads the three acceleration axes
and, when `abs(ax) > 15000 || abs(ay) > 15000`, drives the vibration motor
HIGH for 500 ms then LOW; `az` is read but not used in the condition. -/
def correctPosture (ax ay az : Int) : List Pulse :=
  if 15000 < |ax| ∨ 15000 < |ay| then [⟨VIBRATION_MOTOR_PIN, 500⟩] else []

/-- Outcomes of the hardware and network interactions of one wake; the
firmware branches only on these.  `wifiOk1` is the bootstrap
`initializeWiFi()` call, `wifiOk2` the one in the morning block;
`setupClock` / `acqClock` are the two `getLocalTime` reads (`none` models a
failed read); `logOpenRead` / `logOpenAppend` the two `SPIFFS.open` calls;
`sinkOk` the delivery outcome the sink would report; `est`, `temperature`,
`ax`/`ay`/`az` the sensor values of this wake. -/
structure Env where
  mountOk : Bool
  wifiOk1 : Bool
  setupClock : Option ClockTime
  wifiOk2 : Bool
  logOpenRead : Bool
  sinkOk : Bool
  est : EstimatorOutput
  temperature : Rat
  acqClock : Option ClockTime
  logOpenAppend : Bool
  ax : Int
  ay : Int
  az : Int
deriving DecidableEq

/-- The bootstrap block of `setup()` (lines 54-63): guarded by
`if (!wifiInitialized)` — always taken, since the global re-initializes to
false each boot; on association success it syncs NTP time and disconnects
the radio, on failure it just logs. -/
def bootstrapEvents (wifiOk : Bool) : List Event :=
  if wifiInitializedAtBoot then []
  else if wifiOk then [Event.bootstrapConnect, Event.ntpSync, Event.radioOff]
  else [Event.bootstrapConnect]

/-- The morning block of `setup()` (lines 66-84): reads the RTC; on success,
sets `isMorning` when `tm_hour >= MORNING_HOUR` and, if `isMorning`,
attempts WiFi and on success runs `sendData()`.  On a failed RTC read the
whole block only logs.  `isMorning` starts from its boot initializer. -/
def morningBlock (clock : Option ClockTime) (wifiOk openOk deliveryOk : Bool)
    (store : List SampleRecord) : List SampleRecord × List Event :=
  match clock with
  | none => (store, [Event.clockRead])
  | some t =>
    if isMorningAtBoot = true ∨ MORNING_HOUR ≤ t.hour then
      if wifiOk then
        let d := sendData openOk deliveryOk store
        (d.store, Event.clockRead :: Event.syncConnect :: d.events)
      else (store, [Event.clockRead, Event.syncConnect])
    else (store, [Event.clockRead])

/-- Store contents and step trace of one boot. -/
structure BootResult where
  store : List SampleRecord
  events : List Event
deriving DecidableEq

/-- `setup()` (lines 41-91): mounts SPIFFS (plain `return` on failure —
nothing else runs that wake, not even the sleep timer), initializes the
sensor bus, runs the bootstrap block, the morning block,
`collectAndLogData()`, `correctPosture()`, and finally
`prepareForDeepSleep()` which arms the wake timer and enters deep sleep
(never returns). -/
def setup (env : Env) (store : List SampleRecord) : BootResult :=
  if env.mountOk then
    let sync := morningBlock env.setupClock env.wifiOk2 env.logOpenRead
      env.sinkOk store
    let acq := collectAndLogData env.est env.temperature env.logOpenAppend
      env.acqClock sync.1
    ⟨acq.store,
     Event.sensorInit ::
       (bootstrapEvents env.wifiOk1 ++ sync.2 ++ acq.events ++
        [Event.posture, Event.armTimer SLEEP_INTERVAL, Event.deepSleep])⟩
  else ⟨store, []⟩

/-- A sequence of consecutive wakes.  Deep sleep is a full power-down, so
each wake runs `setup` afresh (RAM globals at their initializers); only the
store persists from one wake to the next.  Returns the final store and the
per-wake traces in order. -/
def runWakes (envs : List Env) (store : List SampleRecord) :
    List SampleRecord × List (List Event) :=
  match envs with
  | [] => (store, [])
  | e :: rest =>
    let b := setup e store
    let r := runWakes rest b.store
    (r.1, b.events :: r.2)

/-- The format string of the logging call in `collectAndLogData`
(line 180). -/
def logFormat : String := "%02d:%02d:%02d,%.2f,%.2f,%.2f\n"

/-- Number of 32-bit argument words a C `printf` consumes for a format
string, on a 32-bit varargs ABI: each `%d` conversion consumes one word,
each `%f` conversion two (its argument is a double after default argument
promotion).  The flag argument is true while scanning a conversion
specification (between `%` and its conversion character). -/
def fmtStackWords : Bool → List Char → Nat
  | _, [] => 0
  | false, c :: rest =>
      if c = '%' then fmtStackWords true rest else fmtStackWords false rest
  | true, c :: rest =>
      if c = 'd' then 1 + fmtStackWords false rest
      else if c = 'f' then 2 + fmtStackWords false rest
      else fmtStackWords true rest

/-- Argument words demanded by a format string. -/
def formatWordsNeeded (s : String) : Nat := fmtStackWords false s.toList

/-- Classification of a C variadic argument by the stack words it
occupies after default argument promotions: `int`-class arguments (incl.
`int32_t`) occupy one 32-bit word, `float`/`double` arguments two. -/
inductive CVarArg where
  | cInt
  | cDouble
deriving DecidableEq

/-- Stack words occupied by one promoted variadic argument. -/
def argStackWords : CVarArg → Nat
  | .cInt => 1
  | .cDouble => 2

/-- The variadic arguments of the logging call (line 180-182):
`timeinfo.tm_hour`, `timeinfo.tm_min`, `timeinfo.tm_sec` (`int`),
`heartRate`, `spo2` (`int32_t`), `temperature` (`float`, promoted to
`double`). -/
def logCallArgs : List CVarArg :=
  [.cInt, .cInt, .cInt, .cInt, .cInt, .cDouble]

/-- Argument words actually supplied by a call. -/
def wordsSupplied (args : List CVarArg) : Nat :=
  (args.map argStackWords).sum

/-- A concrete record used in counterexamples and witnesses:
01:02:03, heart rate 72, SpO2 95, temperature 36. -/
def r0 : SampleRecord := ⟨1, 2, 3, 72, 95, 36⟩

/-- A fully healthy night-time wake: storage mounts, WiFi associates, both
RTC reads succeed at 03:04, both log-file opens succeed. -/
def goodNightEnv : Env :=
  ⟨true, true, some ⟨3, 4, 5⟩, true, true, true, ⟨72, 95, 1, 1⟩, 36,
   some ⟨3, 4, 20⟩, true, 100, -200, 16000⟩

/-- A wake whose SPIFFS mount fails; everything else would succeed. -/
def mountFailEnv : Env :=
  ⟨false, true, some ⟨7, 0, 0⟩, true, true, true, ⟨70, 96, 1, 1⟩, 37,
   some ⟨7, 0, 15⟩, true, 0, 0, 0⟩

/-- A wake where the RTC read inside `collectAndLogData` fails (`acqClock =
none`) while the log file still opens. -/
def rtcFailEnv : Env :=
  ⟨true, true, some ⟨4, 0, 0⟩, true, true, true, ⟨68, 97, 0, 0⟩, 35,
   none, true, 0, 0, 0⟩

/-- A healthy pre-morning wake used for the multi-wake run. -/
def steadyEnv : Env :=
  ⟨true, true, some ⟨3, 0, 0⟩, true, true, true, ⟨72, 95, 1, 1⟩, 36,
   some ⟨3, 0, 10⟩, true, 0, 0, 0⟩

/-- A healthy wake whose clock reads exactly the morning threshold hour,
06:00:00. -/
def morningEdgeEnv : Env :=
  ⟨true, true, some ⟨6, 0, 0⟩, true, true, true, ⟨72, 95, 1, 1⟩, 36,
   some ⟨6, 0, 10⟩, true, 0, 0, 0⟩

/-- A healthy wake whose clock reads one minute before the morning
threshold hour, 05:59:00. -/
def preMorningEnv : Env :=
  ⟨true, true, some ⟨5, 59, 0⟩, true, true, true, ⟨72, 95, 1, 1⟩, 36,
   some ⟨5, 59, 10⟩, true, 0, 0, 0⟩

lemma morningBlock_none (w o d : Bool) (st : List SampleRecord) :
    morningBlock none w o d st = (st, [Event.clockRead]) := rfl

lemma morningBlock_before_morning (t : ClockTime) (h : t.hour < MORNING_HOUR)
    (w o d : Bool) (st : List SampleRecord) :
    morningBlock (some t) w o d st = (st, [Event.clockRead]) := by
  have h' : ¬ MORNING_HOUR ≤ t.hour := not_le.mpr h
  simp [morningBlock, isMorningAtBoot, h']

lemma syncConnect_mem_morningBlock (t : ClockTime) (h : MORNING_HOUR ≤ t.hour)
    (w o d : Bool) (st : List SampleRecord) :
    Event.syncConnect ∈ (morningBlock (some t) w o d st).2 := by
  cases w <;> cases o <;> simp [morningBlock, sendData, h]

lemma bootstrapEvents_phase (w : Bool) :
    ∀ e ∈ bootstrapEvents w, phase e = 1 := by
  cases w <;> decide

lemma bootstrapEvents_pairwise (w : Bool) :
    List.Pairwise (fun a b => phase a ≤ phase b) (bootstrapEvents w) := by
  cases w <;> decide

lemma morningBlock_phase (c : Option ClockTime) (w o d : Bool)
    (st : List SampleRecord) :
    ∀ e ∈ (morningBlock c w o d st).2, 2 ≤ phase e ∧ phase e ≤ 3 := by
  rcases c with _ | t
  · intro e he
    simp [morningBlock] at he
    subst he
    decide
  · by_cases h : isMorningAtBoot = true ∨ MORNING_HOUR ≤ t.hour <;>
      cases w <;> cases o <;>
      simp [morningBlock, sendData, h] <;>
      decide

lemma morningBlock_pairwise (c : Option ClockTime) (w o d : Bool)
    (st : List SampleRecord) :
    List.Pairwise (fun a b => phase a ≤ phase b)
      (morningBlock c w o d st).2 := by
  rcases c with _ | t
  · simp [morningBlock]
  · by_cases h : isMorningAtBoot = true ∨ MORNING_HOUR ≤ t.hour <;>
      cases w <;> cases o <;>
      simp [morningBlock, sendData, h] <;>
      decide

lemma acq_events_phase (est : EstimatorOutput) (temp : Rat) (o : Bool)
    (c : Option ClockTime) (st : List SampleRecord) :
    ∀ e ∈ (collectAndLogData est temp o c st).events,
      4 ≤ phase e ∧ phase e ≤ 6 := by
  cases o <;> rcases c with _ | t <;>
    simp [collectAndLogData] <;> decide

lemma acq_events_pairwise (est : EstimatorOutput) (temp : Rat) (o : Bool)
    (c : Option ClockTime) (st : List SampleRecord) :
    List.Pairwise (fun a b => phase a ≤ phase b)
      (collectAndLogData est temp o c st).events := by
  cases o <;> rcases c with _ | t <;>
    simp [collectAndLogData] <;> decide

lemma setup_events_eq (env : Env) (store : List SampleRecord)
    (hm : env.mountOk = true) :
    (setup env store).events =
      Event.sensorInit ::
        (bootstrapEvents env.wifiOk1 ++
         (morningBlock env.setupClock env.wifiOk2 env.logOpenRead env.sinkOk
           store).2 ++
         (collectAndLogData env.est env.temperature env.logOpenAppend
           env.acqClock
           (morningBlock env.setupClock env.wifiOk2 env.logOpenRead env.sinkOk
             store).1).events ++
         [Event.posture, Event.armTimer SLEEP_INTERVAL, Event.deepSleep]) := by
  simp [setup, hm]

lemma setup_store_eq (env : Env) (store : List SampleRecord)
    (hm : env.mountOk = true) :
    (setup env store).store =
      (collectAndLogData env.est env.temperature env.logOpenAppend env.acqClock
        (morningBlock env.setupClock env.wifiOk2 env.logOpenRead env.sinkOk
          store).1).store := by
  simp [setup, hm]

lemma mem_setup_events (e : Event) (env : Env) (store : List SampleRecord)
    (hm : env.mountOk = true) :
    e ∈ (setup env store).events ↔
      e = Event.sensorInit ∨
      e ∈ bootstrapEvents env.wifiOk1 ∨
      e ∈ (morningBlock env.setupClock env.wifiOk2 env.logOpenRead env.sinkOk
            store).2 ∨
      e ∈ (collectAndLogData env.est env.temperature env.logOpenAppend
            env.acqClock
            (morningBlock env.setupClock env.wifiOk2 env.logOpenRead
              env.sinkOk store).1).events ∨
      e = Event.posture ∨ e = Event.armTimer SLEEP_INTERVAL ∨
      e = Event.deepSleep := by
  rw [setup_events_eq env store hm]
  simp [or_assoc]

lemma getLast?_append_pair (l : List Event) (a b : Event) :
    (l ++ [a, b]).getLast? = some b := by
  rw [show l ++ [a, b] = (l ++ [a]) ++ [b] by simp]
  exact List.getLast?_concat _

/-- Claim C8: `correctPosture` compares the magnitudes of the x and y
acceleration axes against the fixed threshold 15000 and pulses the
vibration motor once for 500 ms exactly when one of them exceeds it; a
magnitude of 16000 on one axis triggers exactly one pulse, magnitudes of
10000 trigger none. -/
theorem posture_threshold_behavior :
    (∀ ax ay az : Int,
        correctPosture ax ay az = [⟨VIBRATION_MOTOR_PIN, 500⟩] ∨
        correctPosture ax ay az = []) ∧
    (∀ ax ay az : Int,
        correctPosture ax ay az ≠ [] ↔ 15000 < |ax| ∨ 15000 < |ay|) ∧
    correctPosture 16000 0 0 = [⟨VIBRATION_MOTOR_PIN, 500⟩] ∧
    correctPosture 10000 (-10000) 0 = [] := by
  refine ⟨?_, ?_, by decide, by decide⟩
  · intro ax ay az
    by_cases h : 15000 < |ax| ∨ 15000 < |ay| <;> simp [correctPosture, h]
  · intro ax ay az
    by_cases h : 15000 < |ax| ∨ 15000 < |ay| <;> simp [correctPosture, h]

/-- Claim C1 (refuted): `sendData` ignores the delivery outcome entirely —
its result is the same whether delivery fails or succeeds — and at the
concrete failing input (one-record store, file opens, delivery reports
failure) it still hands the full batch to the sink and leaves the store
empty, where the claim requires the store to be unchanged. -/
theorem sendData_clears_store_despite_failed_delivery :
    (∀ (openOk : Bool) (store : List SampleRecord),
        sendData openOk false store = sendData openOk true store) ∧
    (sendData true false [r0]).delivered = [r0] ∧
    (sendData true false [r0]).store = [] :=
  ⟨fun _ _ => rfl, rfl, rfl⟩

/-- Claim C3 (refuted at the serialization layer): the logging `printf`'s
format string demands 9 argument words (three `%d` conversions at one word,
three `%.2f` conversions at two words each) while the call supplies only 7
(five `int`-class words for the time fields and the `int32_t` heart rate
and SpO2, plus two for the promoted temperature), so the conversions read
misaligned and out-of-range argument words: the persisted line cannot carry
the original heart-rate and SpO2 values. -/
theorem log_printf_word_count_mismatch :
    formatWordsNeeded logFormat = 9 ∧
    wordsSupplied logCallArgs = 7 ∧
    wordsSupplied logCallArgs < formatWordsNeeded logFormat := by
  refine ⟨by decide, by decide, by decide⟩

/-- Claim C9: the estimator's validity flags are not surfaced: the result
of `collectAndLogData` is identical for any two flag assignments with the
same heart-rate and SpO2 estimates, and the appended record carries the
heart-rate and SpO2 values through unchanged (a `SampleRecord` has no
validity fields at all). -/
theorem validity_flags_not_surfaced :
    ∀ (hr sp v1 v2 w1 w2 : Int) (temp : Rat) (openOk : Bool)
      (clock : Option ClockTime) (store : List SampleRecord),
      collectAndLogData ⟨hr, sp, v1, v2⟩ temp openOk clock store =
        collectAndLogData ⟨hr, sp, w1, w2⟩ temp openOk clock store ∧
      (∀ t : ClockTime,
        (acquiredRecord t ⟨hr, sp, v1, v2⟩ temp).heartRate = hr ∧
        (acquiredRecord t ⟨hr, sp, v1, v2⟩ temp).spo2 = sp) := by
  intro hr sp v1 v2 w1 w2 temp openOk clock store
  refine ⟨?_, fun t => ⟨rfl, rfl⟩⟩
  cases clock <;> cases openOk <;>
    simp [collectAndLogData, acquiredRecord]

/-- Claim C2 (refuted): the clock-bootstrap guard `wifiInitialized` is an
ordinary RAM global that re-initializes to `false` on every boot, so the
second wake of a two-wake run performs the network clock bootstrap (WiFi
association and NTP time set) again, where the claim requires every boot
after the first to skip it. -/
theorem second_wake_repeats_clock_bootstrap :
    Event.ntpSync ∈ (runWakes [steadyEnv, steadyEnv] []).2.getD 1 [] ∧
    Event.bootstrapConnect ∈ (runWakes [steadyEnv, steadyEnv] []).2.getD 1 [] := by
  decide

/-- Claim C4: when the SPIFFS mount fails at boot, `setup` returns at once:
no step of the wake runs (no sensor init, no sync, no acquisition, no
posture feedback, and in particular no timer arming and no sleep entry) and
the store is untouched; the device stalls awake in the empty `loop()`. -/
theorem mount_failure_aborts_boot (env : Env) (store : List SampleRecord)
    (hm : env.mountOk = false) :
    (setup env store).events = [] ∧ (setup env store).store = store := by
  simp [setup, hm]

/-- Witness for C4 at the concrete mount-failure wake. -/
theorem mount_failure_aborts_boot_witness :
    mountFailEnv.mountOk = false ∧
    ((setup mountFailEnv [r0]).events = [] ∧
     (setup mountFailEnv [r0]).store = [r0]) :=
  ⟨rfl, mount_failure_aborts_boot mountFailEnv [r0] rfl⟩

/-- Claim C5: on any wake whose storage mounts and whose clock reads, an
hour-of-day exactly equal to `MORNING_HOUR` makes the wake attempt a sync
(it enters the morning branch and calls `initializeWiFi`), while a clock
reading of 05:59 — one minute before the threshold hour — does not. -/
theorem sync_boundary_at_morning_hour (env env2 : Env)
    (store store2 : List SampleRecord) (m s s2 : Nat)
    (hm : env.mountOk = true) (hm2 : env2.mountOk = true)
    (hc : env.setupClock = some ⟨MORNING_HOUR, m, s⟩)
    (hc2 : env2.setupClock = some ⟨MORNING_HOUR - 1, 59, s2⟩) :
    Event.syncConnect ∈ (setup env store).events ∧
    Event.syncConnect ∉ (setup env2 store2).events := by
  constructor
  · rw [mem_setup_events _ _ _ hm]
    refine Or.inr (Or.inr (Or.inl ?_))
    rw [hc]
    exact syncConnect_mem_morningBlock ⟨MORNING_HOUR, m, s⟩ le_rfl _ _ _ _
  · rw [mem_setup_events _ _ _ hm2]
    intro h
    rcases h with h | h | h | h | h | h | h
    · exact absurd h (by decide)
    · have := bootstrapEvents_phase _ _ h
      simp [phase] at this
    · rw [hc2, morningBlock_before_morning ⟨MORNING_HOUR - 1, 59, s2⟩
        (by show MORNING_HOUR - 1 < MORNING_HOUR; decide)] at h
      simp at h
    · have := (acq_events_phase _ _ _ _ _ _ h).1
      simp [phase] at this
    · exact absurd h (by decide)
    · exact absurd h (by decide)
    · exact absurd h (by decide)

/-- Witness for C5 at two concrete healthy wakes, 06:00 and 05:59. -/
theorem sync_boundary_at_morning_hour_witness :
    morningEdgeEnv.mountOk = true ∧ preMorningEnv.mountOk = true ∧
    morningEdgeEnv.setupClock = some ⟨MORNING_HOUR, 0, 0⟩ ∧
    preMorningEnv.setupClock = some ⟨MORNING_HOUR - 1, 59, 0⟩ ∧
    (Event.syncConnect ∈ (setup morningEdgeEnv [r0]).events ∧
     Event.syncConnect ∉ (setup preMorningEnv [r0]).events) :=
  ⟨rfl, rfl, rfl, rfl,
   sync_boundary_at_morning_hour morningEdgeEnv preMorningEnv [r0] [r0] 0 0 0
     rfl rfl rfl rfl⟩

/-- Claim C6: on a wake whose clock reads an hour below `MORNING_HOUR`, the
sync step is a no-op — no sync connection is attempted and the store is not
drained — while acquisition still appends exactly one new record composed
from this wake's estimator output and temperature. -/
theorem gate_false_sync_noop (env : Env) (store : List SampleRecord)
    (t u : ClockTime) (hm : env.mountOk = true) (hc : env.setupClock = some t)
    (hh : t.hour < MORNING_HOUR) (ha : env.acqClock = some u)
    (ho : env.logOpenAppend = true) :
    Event.syncConnect ∉ (setup env store).events ∧
    Event.drainStore ∉ (setup env store).events ∧
    (setup env store).store =
      store ++ [acquiredRecord u env.est env.temperature] := by
  have hmb :
      morningBlock env.setupClock env.wifiOk2 env.logOpenRead env.sinkOk
        store = (store, [Event.clockRead]) := by
    rw [hc]; exact morningBlock_before_morning t hh _ _ _ _
  refine ⟨?_, ?_, ?_⟩
  · rw [mem_setup_events _ _ _ hm]
    intro h
    rcases h with h | h | h | h | h | h | h
    · exact absurd h (by decide)
    · have := bootstrapEvents_phase _ _ h
      simp [phase] at this
    · rw [hmb] at h
      simp at h
    · have := (acq_events_phase _ _ _ _ _ _ h).1
      simp [phase] at this
    · exact absurd h (by decide)
    · exact absurd h (by decide)
    · exact absurd h (by decide)
  · rw [mem_setup_events _ _ _ hm]
    intro h
    rcases h with h | h | h | h | h | h | h
    · exact absurd h (by decide)
    · have := bootstrapEvents_phase _ _ h
      simp [phase] at this
    · rw [hmb] at h
      simp at h
    · have := (acq_events_phase _ _ _ _ _ _ h).1
      simp [phase] at this
    · exact absurd h (by decide)
    · exact absurd h (by decide)
    · exact absurd h (by decide)
  · rw [setup_store_eq env store hm, hmb, ha, ho]
    simp [collectAndLogData]

/-- Witness for C6 at the concrete 03:04 wake. -/
theorem gate_false_sync_noop_witness :
    goodNightEnv.mountOk = true ∧
    goodNightEnv.setupClock = some ⟨3, 4, 5⟩ ∧
    (⟨3, 4, 5⟩ : ClockTime).hour < MORNING_HOUR ∧
    goodNightEnv.acqClock = some ⟨3, 4, 20⟩ ∧
    goodNightEnv.logOpenAppend = true ∧
    (Event.syncConnect ∉ (setup goodNightEnv [r0]).events ∧
     Event.drainStore ∉ (setup goodNightEnv [r0]).events ∧
     (setup goodNightEnv [r0]).store =
       [r0] ++ [acquiredRecord ⟨3, 4, 20⟩ goodNightEnv.est
                  goodNightEnv.temperature]) :=
  ⟨rfl, rfl, by decide, rfl, rfl,
   gate_false_sync_noop goodNightEnv [r0] ⟨3, 4, 5⟩ ⟨3, 4, 20⟩ rfl rfl
     (by decide) rfl rfl⟩

/-- Claim C7: on every wake whose storage mounts, the trace of the boot is
ordered by the fixed step sequence (sensor-bus init, clock bootstrap, clock
read, conditional sync, acquisition, log open, append, posture feedback,
arm timer, deep sleep), and it ends with arming the 20-second wake timer
immediately followed by sleep entry: everything before those two final
events is posture feedback or earlier, so no logic runs after the timer is
armed and sleep entry is the terminal action. -/
theorem boot_fixed_order (env : Env) (store : List SampleRecord)
    (hm : env.mountOk = true) :
    List.Pairwise (fun a b => phase a ≤ phase b) (setup env store).events ∧
    ∃ pre, (setup env store).events =
        pre ++ [Event.armTimer SLEEP_INTERVAL, Event.deepSleep] ∧
      ∀ e ∈ pre, phase e ≤ 7 := by
  rw [setup_events_eq env store hm]
  have hB := bootstrapEvents_phase env.wifiOk1
  have hM := morningBlock_phase env.setupClock env.wifiOk2 env.logOpenRead
    env.sinkOk store
  have hA := acq_events_phase env.est env.temperature env.logOpenAppend
    env.acqClock
    (morningBlock env.setupClock env.wifiOk2 env.logOpenRead env.sinkOk
      store).1
  have hT : ∀ e ∈ [Event.posture, Event.armTimer SLEEP_INTERVAL,
      Event.deepSleep], 7 ≤ phase e := by decide
  constructor
  · refine List.pairwise_cons.2 ⟨fun b _ => Nat.zero_le _, ?_⟩
    refine List.pairwise_append.2 ⟨?_, ?_, ?_⟩
    · refine List.pairwise_append.2 ⟨?_, ?_, ?_⟩
      · refine List.pairwise_append.2
          ⟨bootstrapEvents_pairwise _, morningBlock_pairwise _ _ _ _ _, ?_⟩
        intro a ha b hb
        have h1 := hB a ha
        have h2 := (hM b hb).1
        omega
      · exact acq_events_pairwise _ _ _ _ _
      · intro a ha b hb
        rcases List.mem_append.1 ha with h | h
        · have h1 := hB a h
          have h2 := (hA b hb).1
          omega
        · have h1 := (hM a h).2
          have h2 := (hA b hb).1
          omega
    · decide
    · intro a ha b hb
      have h2 := hT b hb
      rcases List.mem_append.1 ha with h | h
      · rcases List.mem_append.1 h with h' | h'
        · have h1 := hB a h'
          omega
        · have h1 := (hM a h').2
          omega
      · have h1 := (hA a h).2
        omega
  · refine ⟨Event.sensorInit ::
      (bootstrapEvents env.wifiOk1 ++
       (morningBlock env.setupClock env.wifiOk2 env.logOpenRead env.sinkOk
         store).2 ++
       (collectAndLogData env.est env.temperature env.logOpenAppend
         env.acqClock
         (morningBlock env.setupClock env.wifiOk2 env.logOpenRead env.sinkOk
           store).1).events ++ [Event.posture]), by simp, ?_⟩
    intro e he
    rcases List.mem_cons.1 he with rfl | he'
    · decide
    · rcases List.mem_append.1 he' with h | h
      · rcases List.mem_append.1 h with h' | h'
        · rcases List.mem_append.1 h' with h'' | h''
          · have := hB e h''
            omega
          · have := (hM e h'').2
            omega
        · have := (hA e h').2
          omega
      · rcases List.mem_singleton.1 h with rfl
        decide

/-- Witness for C7 at the concrete healthy wake. -/
theorem boot_fixed_order_witness :
    goodNightEnv.mountOk = true ∧
    (List.Pairwise (fun a b => phase a ≤ phase b)
      (setup goodNightEnv [r0]).events ∧
     ∃ pre, (setup goodNightEnv [r0]).events =
        pre ++ [Event.armTimer SLEEP_INTERVAL, Event.deepSleep] ∧
      ∀ e ∈ pre, phase e ≤ 7) :=
  ⟨rfl, boot_fixed_order goodNightEnv [r0] rfl⟩

/-- Claim C10: when the RTC read inside `collectAndLogData` fails, the log
file is opened but nothing is appended and the step leaves the store
unchanged; at the wake level no append event occurs, while posture feedback
still runs and the boot still ends in deep sleep. -/
theorem rtc_failure_drops_record (env : Env) (store : List SampleRecord)
    (est : EstimatorOutput) (temp : Rat)
    (hm : env.mountOk = true) (ha : env.acqClock = none)
    (ho : env.logOpenAppend = true) :
    collectAndLogData est temp true none store =
      ⟨store, [Event.acquire, Event.logFileOpen]⟩ ∧
    Event.appendRecord ∉ (setup env store).events ∧
    Event.posture ∈ (setup env store).events ∧
    (setup env store).events.getLast? = some Event.deepSleep := by
  refine ⟨rfl, ?_, ?_, ?_⟩
  · rw [mem_setup_events _ _ _ hm]
    intro h
    rcases h with h | h | h | h | h | h | h
    · exact absurd h (by decide)
    · have := bootstrapEvents_phase _ _ h
      simp [phase] at this
    · have := (morningBlock_phase _ _ _ _ _ _ h).2
      simp [phase] at this
    · rw [ha, ho] at h
      simp [collectAndLogData] at h
    · exact absurd h (by decide)
    · exact absurd h (by decide)
    · exact absurd h (by decide)
  · rw [mem_setup_events _ _ _ hm]
    exact Or.inr (Or.inr (Or.inr (Or.inr (Or.inl rfl))))
  · rw [setup_events_eq env store hm]
    rw [show Event.sensorInit ::
        (bootstrapEvents env.wifiOk1 ++
         (morningBlock env.setupClock env.wifiOk2 env.logOpenRead env.sinkOk
           store).2 ++
         (collectAndLogData env.est env.temperature env.logOpenAppend
           env.acqClock
           (morningBlock env.setupClock env.wifiOk2 env.logOpenRead env.sinkOk
             store).1).events ++
         [Event.posture, Event.armTimer SLEEP_INTERVAL, Event.deepSleep]) =
      (Event.sensorInit ::
        (bootstrapEvents env.wifiOk1 ++
         (morningBlock env.setupClock env.wifiOk2 env.logOpenRead env.sinkOk
           store).2 ++
         (collectAndLogData env.est env.temperature env.logOpenAppend
           env.acqClock
           (morningBlock env.setupClock env.wifiOk2 env.logOpenRead env.sinkOk
             store).1).events ++ [Event.posture])) ++
        [Event.armTimer SLEEP_INTERVAL, Event.deepSleep] by simp]
    exact getLast?_append_pair _ _ _

/-- Witness for C10 at the concrete RTC-failure wake. -/
theorem rtc_failure_drops_record_witness :
    rtcFailEnv.mountOk = true ∧ rtcFailEnv.acqClock = none ∧
    rtcFailEnv.logOpenAppend = true ∧
    (collectAndLogData ⟨68, 97, 0, 0⟩ 35 true none [r0] =
      ⟨[r0], [Event.acquire, Event.logFileOpen]⟩ ∧
     Event.appendRecord ∉ (setup rtcFailEnv [r0]).events ∧
     Event.posture ∈ (setup rtcFailEnv [r0]).events ∧
     (setup rtcFailEnv [r0]).events.getLast? = some Event.deepSleep) :=
  ⟨rfl, rfl, rfl,
   rtc_failure_drops_record rtcFailEnv [r0] ⟨68, 97, 0, 0⟩ 35 rfl rfl rfl⟩

end Slumberr
